import Mathlib

/-!
Verification of the financial projection engine (`main.py`).

The nine calculator functions are embedded shallowly:
* real-valued quantities become `ℚ` where every operation of the source is
  rational (EMI, education, retirement, marriage goals) and `ℝ` where the
  source takes a twelfth root (the SIP family and lump-sum projection);
* Python's `x / y` and `x ** e` raise `ZeroDivisionError` on a zero divisor
  (resp. a zero base with negative exponent); fallible operations return
  `Option` and calculators that can fault return `Option` results;
* Python's `round` rounds half to even; `pyRoundInt`, `pyRound0`, `pyRound2`
  model `round(x)`, `round(x, 0)` and `round(x, 2)` in exact arithmetic.
-/

namespace FinCalc

/-- Python division `a / b`: raises `ZeroDivisionError` when `b = 0`,
modelled as `none`. -/
def div? {α : Type} [Field α] [DecidableEq α] (a b : α) : Option α :=
  if b = 0 then none else some (a / b)

/-- Python power `b ** e` for an integer exponent `e`: raises
`ZeroDivisionError` when `b = 0` and `e < 0`, modelled as `none`. -/
def zpow? {α : Type} [Field α] [DecidableEq α] (b : α) (e : ℤ) : Option α :=
  if b = 0 ∧ e < 0 then none else some (b ^ e)

/-- Python `round(x)`: nearest integer, ties to even. -/
def pyRoundInt {α : Type} [LinearOrderedField α] [FloorRing α] (x : α) : ℤ :=
  if x - Int.floor x < 1 / 2 then Int.floor x
  else if 1 / 2 < x - Int.floor x then Int.floor x + 1
  else if Int.floor x % 2 = 0 then Int.floor x else Int.floor x + 1

/-- Python `round(x, 0)` (an integer-valued number). -/
def pyRound0 {α : Type} [LinearOrderedField α] [FloorRing α] (x : α) : α :=
  (pyRoundInt x : α)

/-- Python `round(x, 2)` (nearest multiple of `1/100`, ties to even). -/
def pyRound2 {α : Type} [LinearOrderedField α] [FloorRing α] (x : α) : α :=
  (pyRoundInt (100 * x) : α) / 100

/-- The effective monthly rate `(1 + annual_return / 100) ** (1 / 12) - 1`
computed at the top of the SIP-family calculators. -/
noncomputable def monthlyRate (annual_return : ℝ) : ℝ :=
  (1 + annual_return / 100) ^ ((1 : ℝ) / 12) - 1

/-- The compounding loop `for _ in range(months): corpus = (corpus +
monthly_sip) * (1 + monthly_r)` started at `corpus = 0`. -/
def sipCorpus {α : Type} [Field α] (monthly_sip monthly_r : α) : ℕ → α
  | 0 => 0
  | n + 1 => (sipCorpus monthly_sip monthly_r n + monthly_sip) * (1 + monthly_r)

/-- Result mapping of `sip_calculator` and `sip_step_up_calculator`. -/
structure SIPResult where
  maturity_value : ℝ
  total_invested : ℝ
  wealth_gained : ℝ
  multiple : ℝ

/-- `sip_calculator(monthly_sip, years, annual_return)` from `main.py`.
The final `corpus / total_invested` raises `ZeroDivisionError` when
`total_invested = 0`, hence the `Option` result. -/
noncomputable def sip_calculator (monthly_sip : ℝ) (years : ℤ) (annual_return : ℝ) :
    Option SIPResult :=
  let monthly_r := monthlyRate annual_return
  let months : ℤ := years * 12
  let corpus := sipCorpus monthly_sip monthly_r months.toNat
  let total_invested := monthly_sip * (months : ℝ)
  (div? corpus total_invested).map fun m =>
    { maturity_value := pyRound0 corpus
      total_invested := pyRound0 total_invested
      wealth_gained := pyRound0 (corpus - total_invested)
      multiple := pyRound2 m }

/-- One iteration of the step-up SIP loop at month `month` (months count
from 1): the contribution is stepped up at months 13, 25, … before the
deposit-then-compound update. State is `(corpus, total_invested,
current_sip)`. -/
def stepUpStep {α : Type} [Field α] (monthly_r annual_step_up : α)
    (st : α × α × α) (month : ℕ) : α × α × α :=
  let cur := if 1 < month ∧ (month - 1) % 12 = 0
    then st.2.2 * (1 + annual_step_up / 100) else st.2.2
  ((st.1 + cur) * (1 + monthly_r), st.2.1 + cur, cur)

/-- The step-up SIP loop over months `1, …, n`. -/
def stepUpRun {α : Type} [Field α] (monthly_r annual_step_up monthly_sip : α) :
    ℕ → α × α × α
  | 0 => (0, 0, monthly_sip)
  | n + 1 => stepUpStep monthly_r annual_step_up
      (stepUpRun monthly_r annual_step_up monthly_sip n) (n + 1)

/-- `sip_step_up_calculator(monthly_sip, years, annual_return,
annual_step_up)` from `main.py`. -/
noncomputable def sip_step_up_calculator (monthly_sip : ℝ) (years : ℤ)
    (annual_return annual_step_up : ℝ) : Option SIPResult :=
  let monthly_r := monthlyRate annual_return
  let st := stepUpRun monthly_r annual_step_up monthly_sip (years * 12).toNat
  let corpus := st.1
  let total_invested := st.2.1
  (div? corpus total_invested).map fun m =>
    { maturity_value := pyRound0 corpus
      total_invested := pyRound0 total_invested
      wealth_gained := pyRound0 (corpus - total_invested)
      multiple := pyRound2 m }

/-- Result mapping of `emi_calculator`. -/
structure EMIResult where
  emi : ℚ
  total_payment : ℚ
  total_interest : ℚ
deriving DecidableEq

/-- `emi_calculator(loan_amount, tenure_years, annual_interest_rate)` from
`main.py`: nominal monthly rate `r = rate / 100 / 12`, explicit `r == 0`
branch `loan_amount / n`, otherwise the amortization formula. -/
def emi_calculator (loan_amount : ℚ) (tenure_years : ℤ)
    (annual_interest_rate : ℚ) : Option EMIResult :=
  let r := annual_interest_rate / 100 / 12
  let n : ℤ := tenure_years * 12
  (if r = 0 then div? loan_amount (n : ℚ)
   else
     (zpow? (1 + r) n).bind fun p =>
     div? (loan_amount * r * p) (p - 1)).bind fun emi =>
  let total_payment := emi * (n : ℚ)
  some { emi := pyRound0 emi
         total_payment := pyRound0 total_payment
         total_interest := pyRound0 (total_payment - loan_amount) }

/-- Result mapping of `sip_tenure_calculator`. -/
structure SIPTenureResult where
  years_required : ℤ
  total_months : ℕ
  total_invested : ℝ
  final_corpus : ℝ

/-- The `while corpus < target_amount and months < max_months` loop of
`sip_tenure_calculator`; `fuel` is `max_months - months`, so the cap is
reached exactly when the fuel runs out.  Returns
`(months, total_invested, corpus)`. -/
def tenureGo {α : Type} [LinearOrderedField α]
    (target_amount monthly_sip monthly_r : α) :
    α → α → ℕ → ℕ → ℕ × α × α
  | corpus, total_invested, months, 0 => (months, total_invested, corpus)
  | corpus, total_invested, months, fuel + 1 =>
    if corpus < target_amount then
      tenureGo target_amount monthly_sip monthly_r
        ((corpus + monthly_sip) * (1 + monthly_r))
        (total_invested + monthly_sip) (months + 1) fuel
    else (months, total_invested, corpus)

/-- `sip_tenure_calculator(target_amount, monthly_sip, annual_return)` from
`main.py`, with the hard 720-month cap and
`years_required = math.ceil(months / 12)`. -/
noncomputable def sip_tenure_calculator (target_amount monthly_sip annual_return : ℝ) :
    SIPTenureResult :=
  let monthly_r := monthlyRate annual_return
  let res := tenureGo target_amount monthly_sip monthly_r 0 0 0 (60 * 12)
  { years_required := Int.ceil ((res.1 : ℝ) / 12)
    total_months := res.1
    total_invested := pyRound0 res.2.1
    final_corpus := pyRound0 res.2.2 }

/-- Result mapping of `lumpsum_calculator`: the `inflation_adjusted_value`
key is present in the returned dict only when `inflation` was supplied. -/
structure LumpsumResult where
  future_value : ℝ
  inflation_adjusted_value : Option ℝ

/-- `lumpsum_calculator(amount, years, annual_return, inflation=None)` from
`main.py`. -/
noncomputable def lumpsum_calculator (amount : ℝ) (years : ℤ) (annual_return : ℝ)
    (inflation : Option ℝ) : Option LumpsumResult :=
  let monthly_r := monthlyRate annual_return
  let months : ℤ := years * 12
  (zpow? (1 + monthly_r) months).bind fun p =>
  let future_value := amount * p
  match inflation with
  | none => some { future_value := pyRound0 future_value
                   inflation_adjusted_value := none }
  | some infl =>
    let monthly_i := monthlyRate infl
    (zpow? (1 + monthly_i) months).bind fun q =>
    (div? future_value q).bind fun real_value =>
    some { future_value := pyRound0 future_value
           inflation_adjusted_value := some (pyRound0 real_value) }

/-- Result mapping of `education_calculator`. -/
structure EducationResult where
  total_required : ℚ
  corpus_today : ℚ
  value_at_college : ℚ
  lump_sum_today : ℚ
  monthly_sip : ℚ
deriving DecidableEq

/-- `education_calculator(...)` from `main.py`.  Note that `sip_factor`
divides by the nominal monthly rate unconditionally (even when the gap is
zero), and the lump-sum division happens only when `gap > 0`. -/
def education_calculator (child_age college_age education_duration_years : ℤ)
    (annual_cost_today existing_corpus investment_return education_inflation : ℚ) :
    Option EducationResult :=
  let years_to_college := college_age - child_age
  (zpow? (1 + education_inflation / 100) years_to_college).bind fun p1 =>
  let inflated_annual_cost := annual_cost_today * p1
  let total_required := ∑ year ∈ Finset.range education_duration_years.toNat,
    inflated_annual_cost * (1 + education_inflation / 100) ^ year
  (zpow? (1 + investment_return / 100) years_to_college).bind fun p2 =>
  let existing_corpus_future := existing_corpus * p2
  let gap := max 0 (total_required - existing_corpus_future)
  (if 0 < gap then
      (zpow? (1 + investment_return / 100) years_to_college).bind fun p3 =>
      div? gap p3
    else some 0).bind fun lump_sum_today =>
  let monthly_r := investment_return / 100 / 12
  let months := years_to_college * 12
  (zpow? (1 + monthly_r) months).bind fun p4 =>
  (div? (p4 - 1) monthly_r).bind fun sip_factor =>
  let sip_factor_due := sip_factor * (1 + monthly_r)
  (if 0 < gap then div? gap sip_factor_due else some 0).bind fun monthly_sip =>
  some { total_required := pyRound0 total_required
         corpus_today := existing_corpus
         value_at_college := pyRound0 existing_corpus_future
         lump_sum_today := pyRound0 lump_sum_today
         monthly_sip := pyRound0 monthly_sip }

/-- Result mapping of `retirement_calculator`. -/
structure RetirementResult where
  monthly_expense_at_retirement : ℚ
  corpus_required : ℚ
  total_available : ℚ
  shortfall : ℚ
  sip : ℚ
  lumpsum : ℚ
deriving DecidableEq

/-- `retirement_calculator(...)` from `main.py`: real post-retirement
return, annuity present value for the required corpus, annuity-due future
value of current savings, and shortfall-driven required SIP / lump sum. -/
def retirement_calculator (current_age retirement_age life_expectancy : ℤ)
    (current_monthly_expense inflation_rate current_monthly_saving
      existing_corpus pre_retirement_return post_retirement_return : ℚ) :
    Option RetirementResult :=
  let years_to_retirement := retirement_age - current_age
  let retirement_years := life_expectancy - retirement_age
  (zpow? (1 + inflation_rate / 100) years_to_retirement).bind fun p1 =>
  let monthly_expense_at_retirement := current_monthly_expense * p1
  let annual_expense_at_retirement := monthly_expense_at_retirement * 12
  (div? (1 + post_retirement_return / 100) (1 + inflation_rate / 100)).bind fun q =>
  let real_return := q - 1
  (zpow? (1 + real_return) (-retirement_years)).bind fun p2 =>
  (div? (1 - p2) real_return).bind fun annuity =>
  let corpus_required := annual_expense_at_retirement * annuity
  (zpow? (1 + pre_retirement_return / 100) years_to_retirement).bind fun p3 =>
  let fv_existing := existing_corpus * p3
  let monthly_r := pre_retirement_return / 100 / 12
  let months := years_to_retirement * 12
  (zpow? (1 + monthly_r) months).bind fun p4 =>
  (div? (p4 - 1) monthly_r).bind fun sf =>
  let sip_fv := current_monthly_saving * sf * (1 + monthly_r)
  let total_available := fv_existing + sip_fv
  let shortfall := max 0 (corpus_required - total_available)
  (if 0 < shortfall then
      (zpow? (1 + monthly_r) months).bind fun p5 =>
      (div? (p5 - 1) monthly_r).bind fun sf2 =>
      div? shortfall (sf2 * (1 + monthly_r))
    else some 0).bind fun sip_required =>
  (if 0 < shortfall then
      (zpow? (1 + pre_retirement_return / 100) years_to_retirement).bind fun p6 =>
      div? shortfall p6
    else some 0).bind fun lump_sum_required =>
  some { monthly_expense_at_retirement := pyRound0 monthly_expense_at_retirement
         corpus_required := pyRound0 corpus_required
         total_available := pyRound0 total_available
         shortfall := pyRound0 shortfall
         sip := pyRound0 sip_required
         lumpsum := pyRound0 lump_sum_required }

/-- Result mapping of `marriage_calculator`. -/
structure MarriageResult where
  goal_amount : ℚ
  corpus_today : ℚ
  value_at_goal : ℚ
  lump_sum_today : ℚ
  monthly_sip : ℚ
deriving DecidableEq

/-- `marriage_calculator(...)` from `main.py`: same goal-gap shape as the
education goal but with a single inflated lump cost. -/
def marriage_calculator (current_age marriage_age : ℤ)
    (marriage_cost_today existing_corpus investment_return cost_inflation : ℚ) :
    Option MarriageResult :=
  let years_to_goal := marriage_age - current_age
  (zpow? (1 + cost_inflation / 100) years_to_goal).bind fun p1 =>
  let inflated_cost := marriage_cost_today * p1
  (zpow? (1 + investment_return / 100) years_to_goal).bind fun p2 =>
  let existing_corpus_future := existing_corpus * p2
  let gap := max 0 (inflated_cost - existing_corpus_future)
  (if 0 < gap then
      (zpow? (1 + investment_return / 100) years_to_goal).bind fun p3 =>
      div? gap p3
    else some 0).bind fun lump_sum_today =>
  let monthly_r := investment_return / 100 / 12
  let months := years_to_goal * 12
  (zpow? (1 + monthly_r) months).bind fun p4 =>
  (div? (p4 - 1) monthly_r).bind fun sip_factor =>
  let sip_factor_due := sip_factor * (1 + monthly_r)
  (if 0 < gap then div? gap sip_factor_due else some 0).bind fun monthly_sip =>
  some { goal_amount := pyRound0 inflated_cost
         corpus_today := existing_corpus
         value_at_goal := pyRound0 existing_corpus_future
         lump_sum_today := pyRound0 lump_sum_today
         monthly_sip := pyRound0 monthly_sip }

/-- `sip_future_value(monthly_sip, months, annual_return)` from `main.py`:
the helper shared by the cost-of-delay comparator; `range(months)` is empty
when `months ≤ 0`. -/
noncomputable def sip_future_value (monthly_sip : ℝ) (months : ℤ) (annual_return : ℝ) : ℝ :=
  sipCorpus monthly_sip (monthlyRate annual_return) months.toNat

/-- The `start_now` block of the cost-of-delay result. -/
structure CODLeg where
  maturity_value : ℝ
  amount_invested : ℝ
  wealth_gained : ℝ

/-- The `start_late` block of the cost-of-delay result. -/
structure CODLateLeg where
  delay_months : ℤ
  maturity_value : ℝ
  amount_invested : ℝ
  wealth_gained : ℝ

/-- Result mapping of `cost_of_delay_calculator`. -/
structure CODResult where
  start_now : CODLeg
  start_late : CODLateLeg
  cost_of_delay : ℝ

/-- `cost_of_delay_calculator(monthly_sip, years, annual_return,
delay_months)` from `main.py`.  No division occurs, so the result is total. -/
noncomputable def cost_of_delay_calculator (monthly_sip : ℝ) (years : ℤ)
    (annual_return : ℝ) (delay_months : ℤ) : CODResult :=
  let total_months : ℤ := years * 12
  let fv_start_now := sip_future_value monthly_sip total_months annual_return
  let fv_start_late := sip_future_value monthly_sip (total_months - delay_months) annual_return
  let total_invested_now := monthly_sip * (total_months : ℝ)
  let total_invested_late := monthly_sip * ((total_months - delay_months : ℤ) : ℝ)
  { start_now :=
      { maturity_value := pyRound0 fv_start_now
        amount_invested := pyRound0 total_invested_now
        wealth_gained := pyRound0 (fv_start_now - total_invested_now) }
    start_late :=
      { delay_months := delay_months
        maturity_value := pyRound0 fv_start_late
        amount_invested := pyRound0 total_invested_late
        wealth_gained := pyRound0 (fv_start_late - total_invested_late) }
    cost_of_delay := pyRound0 (fv_start_now - fv_start_late) }

/-! ### Basic facts about the fallible primitives and rounding -/

theorem div?_zero {α : Type} [Field α] [DecidableEq α] (a : α) : div? a 0 = none := by
  simp [div?]

theorem div?_of_ne {α : Type} [Field α] [DecidableEq α] (a b : α) (h : b ≠ 0) :
    div? a b = some (a / b) := by
  simp [div?, h]

theorem zpow?_of_nonneg {α : Type} [Field α] [DecidableEq α] (b : α) (e : ℤ)
    (h : 0 ≤ e) : zpow? b e = some (b ^ e) := by
  unfold zpow?
  rw [if_neg]
  rintro ⟨-, hlt⟩
  omega

theorem zpow?_of_base_ne {α : Type} [Field α] [DecidableEq α] (b : α) (e : ℤ)
    (h : b ≠ 0) : zpow? b e = some (b ^ e) := by
  unfold zpow?
  rw [if_neg]
  rintro ⟨hb, -⟩
  exact h hb

theorem pyRoundInt_intCast {α : Type} [LinearOrderedField α] [FloorRing α] (k : ℤ) :
    pyRoundInt (k : α) = k := by
  unfold pyRoundInt
  rw [Int.floor_intCast, sub_self, if_pos (by norm_num)]

theorem pyRound0_intCast {α : Type} [LinearOrderedField α] [FloorRing α] (k : ℤ) :
    pyRound0 (k : α) = k := by
  simp [pyRound0, pyRoundInt_intCast]

theorem pyRound0_zero {α : Type} [LinearOrderedField α] [FloorRing α] :
    pyRound0 (0 : α) = 0 := by
  simpa using pyRound0_intCast (α := α) 0

theorem monthlyRate_zero : monthlyRate 0 = 0 := by
  simp [monthlyRate]

theorem sipCorpus_rate_zero {α : Type} [Field α] (c : α) :
    ∀ n : ℕ, sipCorpus c 0 n = c * n
  | 0 => by simp [sipCorpus]
  | n + 1 => by
    rw [sipCorpus, sipCorpus_rate_zero c n]
    push_cast
    ring

theorem stepUpStep_no_step {α : Type} [Field α] (r : α) (st : α × α × α) (m : ℕ) :
    stepUpStep r 0 st m = ((st.1 + st.2.2) * (1 + r), st.2.1 + st.2.2, st.2.2) := by
  simp only [stepUpStep]
  split_ifs <;> norm_num

theorem stepUpRun_no_step {α : Type} [Field α] (r c : α) :
    ∀ n : ℕ, stepUpRun r 0 c n = (sipCorpus c r n, c * n, c)
  | 0 => by simp [stepUpRun, sipCorpus]
  | n + 1 => by
    rw [stepUpRun, stepUpRun_no_step r c n, stepUpStep_no_step]
    simp only [sipCorpus, Prod.mk.injEq]
    exact ⟨trivial, by push_cast; ring, trivial⟩

theorem pyRoundInt_neg {α : Type} [LinearOrderedField α] [FloorRing α] (x : α) :
    pyRoundInt (-x) = -pyRoundInt x := by
  rcases eq_or_ne (Int.fract x) 0 with h0 | h0
  · obtain ⟨k, hk⟩ : ∃ k : ℤ, (k : α) = x := ⟨⌊x⌋, by
      have h := Int.fract_add_floor x
      rw [h0, zero_add] at h
      exact h⟩
    rw [← hk, ← Int.cast_neg, pyRoundInt_intCast, pyRoundInt_intCast]
  · have hlt : (⌊x⌋ : α) < x := by
      rcases lt_or_eq_of_le (Int.floor_le x) with h | h
      · exact h
      · exact absurd (by rw [← h, Int.fract_intCast]) h0
    have hfl : ⌊-x⌋ = -⌊x⌋ - 1 := by
      rw [Int.floor_eq_iff]
      constructor
      · push_cast
        linarith [Int.lt_floor_add_one x]
      · push_cast
        linarith
    unfold pyRoundInt
    rw [hfl]
    push_cast
    split_ifs <;> first | omega | linarith

theorem pyRound0_neg {α : Type} [LinearOrderedField α] [FloorRing α] (x : α) :
    pyRound0 (-x) = -pyRound0 x := by
  simp [pyRound0, pyRoundInt_neg]

theorem pyRoundInt_le_neg_one {α : Type} [LinearOrderedField α] [FloorRing α]
    (x : α) (h : x < -(1 / 2)) : pyRoundInt x ≤ -1 := by
  have hfl : (⌊x⌋ : α) ≤ x := Int.floor_le x
  have hneg : ⌊x⌋ ≤ -1 := by
    have h1 : (⌊x⌋ : α) < 0 := lt_of_le_of_lt hfl (by linarith)
    have h2 : ⌊x⌋ < 0 := by exact_mod_cast h1
    omega
  unfold pyRoundInt
  split_ifs with h1 h2 h3
  · exact hneg
  · have hc : (⌊x⌋ : α) < -1 := by linarith
    have hz : ⌊x⌋ < -1 := by exact_mod_cast hc
    omega
  · exact hneg
  · have hge : 1 / 2 ≤ x - ⌊x⌋ := le_of_not_lt h1
    have hc : (⌊x⌋ : α) < -1 := by linarith
    have hz : ⌊x⌋ < -1 := by exact_mod_cast hc
    omega

/-! ### The tenure search loop -/

theorem tenureGo_spec {α : Type} [LinearOrderedField α] (t c r : α) :
    ∀ (fuel k : ℕ), ∃ m : ℕ,
      tenureGo t c r (sipCorpus c r k) (c * k) k fuel = (m, c * m, sipCorpus c r m) ∧
      k ≤ m ∧ m ≤ k + fuel ∧
      (∀ j, k ≤ j → j < m → sipCorpus c r j < t) ∧
      (m < k + fuel → t ≤ sipCorpus c r m)
  | 0, k =>
    ⟨k, rfl, le_rfl, by omega,
      fun j hj1 hj2 => absurd hj2 (by omega),
      fun h => absurd h (by omega)⟩
  | fuel + 1, k => by
    rw [tenureGo]
    by_cases hc : sipCorpus c r k < t
    · rw [if_pos hc]
      have hstep : (sipCorpus c r k + c) * (1 + r) = sipCorpus c r (k + 1) := rfl
      have hinv : c * (k : α) + c = c * ((k + 1 : ℕ) : α) := by push_cast; ring
      rw [hstep, hinv]
      obtain ⟨m, heq, h1, h2, h3, h4⟩ := tenureGo_spec t c r fuel (k + 1)
      refine ⟨m, heq, by omega, by omega, ?_, fun h => h4 (by omega)⟩
      intro j hj1 hj2
      rcases eq_or_lt_of_le hj1 with h | h
      · rw [← h]
        exact hc
      · exact h3 j (by omega) hj2
    · rw [if_neg hc]
      exact ⟨k, rfl, le_rfl, by omega,
        fun j hj1 hj2 => absurd hj2 (by omega),
        fun _ => le_of_not_lt hc⟩

/-! ### Claim theorems -/

/-- C3: the claim (and the spec) require `sip_calculator` to return
`multiple = 0` when `years = 0`; the code instead computes
`total_invested = 0` and the `corpus / total_invested` division raises
`ZeroDivisionError`, so no result is returned at all (modelled `none`).
This theorem evaluates the code at every failing input with `years = 0`. -/
theorem sip_calculator_years_zero_faults_c3 (monthly_sip annual_return : ℝ) :
    sip_calculator monthly_sip 0 annual_return = none := by
  simp [sip_calculator, div?]

/-- C1 counterexample: at `monthly_sip = 100`, `years = 0`,
`annual_return = 12` — an input the claim covers via `y ≥ 0` — the
function returns no result (the `multiple` division faults), so it does
not return the four claimed fields. -/
theorem sip_calculator_c1_counterexample : sip_calculator 100 0 12 = none := by
  simp [sip_calculator, div?]

/-- C1 (amended): whenever `total_invested = c * (y*12)` is nonzero,
`sip_calculator` computes the monthly rate `(1 + a/100) ^ (1/12) - 1`,
iterates `corpus = (corpus + c) * (1 + monthly_rate)` exactly `y*12` times
from 0 and returns the claimed four rounded fields; when
`total_invested = 0` the `multiple` division faults and nothing is
returned. -/
theorem sip_calculator_formula_c1 (c : ℝ) (y : ℕ) (a : ℝ) :
    (c * ((y * 12 : ℕ) : ℝ) ≠ 0 →
      sip_calculator c (y : ℤ) a =
        some { maturity_value :=
                 pyRound0 (sipCorpus c ((1 + a / 100) ^ ((1 : ℝ) / 12) - 1) (y * 12))
               total_invested := pyRound0 (c * ((y * 12 : ℕ) : ℝ))
               wealth_gained :=
                 pyRound0 (sipCorpus c ((1 + a / 100) ^ ((1 : ℝ) / 12) - 1) (y * 12) -
                   c * ((y * 12 : ℕ) : ℝ))
               multiple :=
                 pyRound2 (sipCorpus c ((1 + a / 100) ^ ((1 : ℝ) / 12) - 1) (y * 12) /
                   (c * ((y * 12 : ℕ) : ℝ))) }) ∧
    (c * ((y * 12 : ℕ) : ℝ) = 0 → sip_calculator c (y : ℤ) a = none) := by
  have hm : ((y : ℤ) * 12).toNat = y * 12 := by omega
  have hc : (((y : ℤ) * 12 : ℤ) : ℝ) = ((y * 12 : ℕ) : ℝ) := by push_cast; ring
  constructor
  · intro h
    simp only [sip_calculator, monthlyRate]
    rw [hm, hc, div?_of_ne _ _ h]
    rfl
  · intro h
    simp only [sip_calculator, monthlyRate]
    rw [hm, hc, h, div?_zero]
    rfl

/-- C1 witness: the amended theorem applied at `c = 100`, `y = 1`, `a = 0`
(nonzero invested total) and at `c = 5`, `y = 0`, `a = 7` (zero invested
total). -/
theorem sip_calculator_formula_c1_witness :
    (100 : ℝ) * ((1 * 12 : ℕ) : ℝ) ≠ 0 ∧
    sip_calculator 100 ((1 : ℕ) : ℤ) 0 =
      some { maturity_value :=
               pyRound0 (sipCorpus 100 ((1 + (0 : ℝ) / 100) ^ ((1 : ℝ) / 12) - 1) (1 * 12))
             total_invested := pyRound0 ((100 : ℝ) * ((1 * 12 : ℕ) : ℝ))
             wealth_gained :=
               pyRound0 (sipCorpus 100 ((1 + (0 : ℝ) / 100) ^ ((1 : ℝ) / 12) - 1) (1 * 12) -
                 (100 : ℝ) * ((1 * 12 : ℕ) : ℝ))
             multiple :=
               pyRound2 (sipCorpus 100 ((1 + (0 : ℝ) / 100) ^ ((1 : ℝ) / 12) - 1) (1 * 12) /
                 ((100 : ℝ) * ((1 * 12 : ℕ) : ℝ))) } ∧
    sip_calculator 5 ((0 : ℕ) : ℤ) 7 = none :=
  ⟨by norm_num,
   (sip_calculator_formula_c1 100 1 0).1 (by norm_num),
   (sip_calculator_formula_c1 5 0 7).2 (by norm_num)⟩

/-- C7: with `annual_step_up = 0` the step-up SIP calculator agrees with the
plain SIP calculator on every contribution, every `years ≥ 0` and every
annual return (including the joint fault at `years = 0`). -/
theorem step_up_zero_equiv_c7 (c : ℝ) (y : ℕ) (a : ℝ) :
    sip_step_up_calculator c (y : ℤ) a 0 = sip_calculator c (y : ℤ) a := by
  have hm : ((y : ℤ) * 12).toNat = y * 12 := by omega
  simp only [sip_step_up_calculator, sip_calculator]
  rw [hm, stepUpRun_no_step]
  push_cast
  rfl

/-- C5: `emi_calculator` takes the explicit zero-rate branch
(`payment = p / (t*12)` exactly, no fault, zero interest) when the annual
rate is 0, and otherwise returns the standard amortization formula at the
nominal monthly rate `a/100/12`, all rounded to whole units.  For the
nonzero branch the amortization denominator must be nonzero (otherwise the
input is a domain-validation failure per the spec). -/
theorem emi_calculator_c5 :
    (∀ (p : ℚ) (t : ℤ), 0 < t →
      emi_calculator p t 0 =
        some { emi := pyRound0 (p / ((t * 12 : ℤ) : ℚ))
               total_payment := pyRound0 p
               total_interest := 0 }) ∧
    (∀ (p : ℚ) (t : ℤ) (a : ℚ), 0 < t → a ≠ 0 →
      (1 + a / 100 / 12) ^ (t * 12) ≠ 1 →
      emi_calculator p t a =
        some { emi := pyRound0 (p * (a / 100 / 12) * (1 + a / 100 / 12) ^ (t * 12) /
                 ((1 + a / 100 / 12) ^ (t * 12) - 1))
               total_payment := pyRound0 (p * (a / 100 / 12) * (1 + a / 100 / 12) ^ (t * 12) /
                 ((1 + a / 100 / 12) ^ (t * 12) - 1) * ((t * 12 : ℤ) : ℚ))
               total_interest := pyRound0 (p * (a / 100 / 12) * (1 + a / 100 / 12) ^ (t * 12) /
                 ((1 + a / 100 / 12) ^ (t * 12) - 1) * ((t * 12 : ℤ) : ℚ) - p) }) := by
  constructor
  · intro p t ht
    have hn : ((t * 12 : ℤ) : ℚ) ≠ 0 := by
      exact_mod_cast (by omega : (t * 12 : ℤ) ≠ 0)
    simp only [emi_calculator]
    rw [if_pos (by norm_num : (0 : ℚ) / 100 / 12 = 0), div?_of_ne _ _ hn,
      Option.some_bind, div_mul_cancel₀ _ hn, sub_self, pyRound0_zero]
  · intro p t a ht ha hden
    have hr : a / 100 / 12 ≠ 0 := div_ne_zero (div_ne_zero ha (by norm_num)) (by norm_num)
    simp only [emi_calculator]
    rw [if_neg hr, zpow?_of_nonneg _ _ (by omega : (0 : ℤ) ≤ t * 12), Option.some_bind,
      div?_of_ne _ _ (sub_ne_zero.mpr hden), Option.some_bind]

/-- C5 witness: the theorem applied at `p = 1200`, `t = 1` with rate 0
(zero-rate branch) and rate 1200 (nominal monthly rate 1, so the
amortization denominator is `2^12 - 1`). -/
theorem emi_calculator_c5_witness :
    emi_calculator 1200 1 0 = some { emi := 100, total_payment := 1200, total_interest := 0 } ∧
    emi_calculator 1200 1 1200 =
      some { emi := 1200, total_payment := 14404, total_interest := 13204 } := by
  constructor
  · rw [emi_calculator_c5.1 1200 1 (by norm_num)]
    norm_num [Option.some.injEq, EMIResult.mk.injEq, pyRound0, pyRoundInt]
  · rw [emi_calculator_c5.2 1200 1 1200 (by norm_num) (by norm_num) (by norm_num)]
    norm_num [Option.some.injEq, EMIResult.mk.injEq, pyRound0, pyRoundInt]

theorem zpow?_one (e : ℤ) : zpow? (1 : ℚ) e = some 1 := by
  rw [zpow?_of_base_ne _ _ one_ne_zero, one_zpow]

theorem div?_one (g : ℚ) : div? g 1 = some g := by
  rw [div?_of_ne _ _ one_ne_zero, div_one]

/-- With `investment_return = 0` the nominal monthly rate is 0 and the
unconditional `sip_factor = ((1 + monthly_r) ** months - 1) / monthly_r`
division of `education_calculator` raises, whatever the other inputs. -/
theorem education_calculator_zero_return (ca coa dur : ℤ) (cost ec ei : ℚ) :
    education_calculator ca coa dur cost ec 0 ei = none := by
  have h3 : (0 : ℚ) / 100 / 12 = 0 := by norm_num
  have h4 : (1 : ℚ) + 0 / 100 = 1 := by norm_num
  cases hz : zpow? (1 + ei / 100) (coa - ca) with
  | none => simp [education_calculator, hz]
  | some p1 =>
    simp only [education_calculator, hz, Option.some_bind, h3, h4, add_zero, zpow?_one,
      div?_one, sub_self, div?_zero, Option.none_bind]
    split_ifs <;> rfl

/-- With `post_retirement_return = inflation_rate` the real post-retirement
return is 0 and the corpus-required annuity division of
`retirement_calculator` raises (or, when `inflation_rate = -100`, the
real-return division itself raises), whatever the other inputs. -/
theorem retirement_calculator_real_zero (ca ra le : ℤ) (cme ir sav ec pre : ℚ) :
    retirement_calculator ca ra le cme ir sav ec pre ir = none := by
  cases hz : zpow? (1 + ir / 100) (ra - ca) with
  | none => simp [retirement_calculator, hz]
  | some p1 =>
    by_cases hd : (1 : ℚ) + ir / 100 = 0
    · simp [retirement_calculator, hz, div?, hd]
    · have hq : div? (1 + ir / 100) (1 + ir / 100) = some 1 := by
        rw [div?_of_ne _ _ hd, div_self hd]
      simp only [retirement_calculator, hz, Option.some_bind, hq, sub_self, add_zero,
        zpow?_one, div?_zero, Option.none_bind]

/-- C2 counterexample: at the domain-invalid input
`investment_return = 0` (a rate that zeroes the SIP-factor divisor outside
the EMI zero-rate branch), `education_calculator` does not report a
validation failure — it hits the `sip_factor` division by zero and the
arithmetic fault escapes the engine (modelled `none`). -/
theorem education_zero_return_c2_counterexample :
    education_calculator 5 10 4 1000 500 0 0 = none :=
  education_calculator_zero_return 5 10 4 1000 500 0

/-- C2 (amended): the engine performs no domain validation.  A
domain-invalid rate reaches the arithmetic directly and the fault
propagates across the engine boundary: `investment_return = 0` makes
`education_calculator` fault on the unconditional `sip_factor` division
for every input, and `post_retirement_return = inflation_rate` makes
`retirement_calculator` fault on the real-return annuity division for
every input. -/
theorem no_domain_validation_c2 :
    (∀ (child_age college_age education_duration_years : ℤ)
       (annual_cost_today existing_corpus education_inflation : ℚ),
       education_calculator child_age college_age education_duration_years
         annual_cost_today existing_corpus 0 education_inflation = none) ∧
    (∀ (current_age retirement_age life_expectancy : ℤ)
       (current_monthly_expense inflation_rate current_monthly_saving
         existing_corpus pre_retirement_return : ℚ),
       retirement_calculator current_age retirement_age life_expectancy
         current_monthly_expense inflation_rate current_monthly_saving
         existing_corpus pre_retirement_return inflation_rate = none) :=
  ⟨fun ca coa dur cost ec ei => education_calculator_zero_return ca coa dur cost ec ei,
   fun ca ra le cme ir sav ec pre => retirement_calculator_real_zero ca ra le cme ir sav ec pre⟩

/-- C4: on domain-valid inputs (nonnegative horizon, nonzero investment
return — per the spec a zero rate is itself a domain-validation failure)
whenever the existing corpus grown to the goal date covers the required
future cost, the gap `max 0 (required - grown)` is 0 and both calculators
return `lump_sum_today = 0` and `monthly_sip = 0` with no
division-by-zero artifact. -/
theorem goal_gap_zero_c4 :
    (∀ (ca coa dur : ℤ) (cost ec ir ei : ℚ), ca ≤ coa → ir ≠ 0 →
      (∑ year ∈ Finset.range dur.toNat,
          cost * (1 + ei / 100) ^ (coa - ca) * (1 + ei / 100) ^ year) ≤
        ec * (1 + ir / 100) ^ (coa - ca) →
      education_calculator ca coa dur cost ec ir ei =
        some { total_required := pyRound0 (∑ year ∈ Finset.range dur.toNat,
                 cost * (1 + ei / 100) ^ (coa - ca) * (1 + ei / 100) ^ year)
               corpus_today := ec
               value_at_college := pyRound0 (ec * (1 + ir / 100) ^ (coa - ca))
               lump_sum_today := 0
               monthly_sip := 0 }) ∧
    (∀ (ca ma : ℤ) (cost ec ir ci : ℚ), ca ≤ ma → ir ≠ 0 →
      cost * (1 + ci / 100) ^ (ma - ca) ≤ ec * (1 + ir / 100) ^ (ma - ca) →
      marriage_calculator ca ma cost ec ir ci =
        some { goal_amount := pyRound0 (cost * (1 + ci / 100) ^ (ma - ca))
               corpus_today := ec
               value_at_goal := pyRound0 (ec * (1 + ir / 100) ^ (ma - ca))
               lump_sum_today := 0
               monthly_sip := 0 }) := by
  constructor
  · intro ca coa dur cost ec ir ei hage hir hle
    have hy : (0 : ℤ) ≤ coa - ca := by omega
    have hy12 : (0 : ℤ) ≤ (coa - ca) * 12 := by omega
    have hr : ir / 100 / 12 ≠ 0 := div_ne_zero (div_ne_zero hir (by norm_num)) (by norm_num)
    simp only [education_calculator]
    rw [zpow?_of_nonneg (1 + ei / 100) _ hy]
    simp only [Option.some_bind]
    rw [zpow?_of_nonneg (1 + ir / 100) _ hy]
    simp only [Option.some_bind]
    rw [max_eq_left (sub_nonpos.mpr hle), if_neg (lt_irrefl 0)]
    simp only [Option.some_bind]
    rw [zpow?_of_nonneg (1 + ir / 100 / 12) _ hy12]
    simp only [Option.some_bind]
    rw [div?_of_ne _ _ hr]
    simp only [Option.some_bind]
    rw [if_neg (lt_irrefl 0)]
    simp only [Option.some_bind]
    rw [pyRound0_zero]
  · intro ca ma cost ec ir ci hage hir hle
    have hy : (0 : ℤ) ≤ ma - ca := by omega
    have hy12 : (0 : ℤ) ≤ (ma - ca) * 12 := by omega
    have hr : ir / 100 / 12 ≠ 0 := div_ne_zero (div_ne_zero hir (by norm_num)) (by norm_num)
    simp only [marriage_calculator]
    rw [zpow?_of_nonneg (1 + ci / 100) _ hy]
    simp only [Option.some_bind]
    rw [zpow?_of_nonneg (1 + ir / 100) _ hy]
    simp only [Option.some_bind]
    rw [max_eq_left (sub_nonpos.mpr hle), if_neg (lt_irrefl 0)]
    simp only [Option.some_bind]
    rw [zpow?_of_nonneg (1 + ir / 100 / 12) _ hy12]
    simp only [Option.some_bind]
    rw [div?_of_ne _ _ hr]
    simp only [Option.some_bind]
    rw [if_neg (lt_irrefl 0)]
    simp only [Option.some_bind]
    rw [pyRound0_zero]

/-- C4 witness: the theorem applied to an education goal (`child_age 5`,
`college_age 6`, one year of education, cost 100, corpus 200, return 5%,
inflation 0%) and the analogous marriage goal, both fully covered by the
existing corpus. -/
theorem goal_gap_zero_c4_witness :
    education_calculator 5 6 1 100 200 5 0 =
      some { total_required := 100, corpus_today := 200, value_at_college := 210,
             lump_sum_today := 0, monthly_sip := 0 } ∧
    marriage_calculator 20 21 100 200 5 0 =
      some { goal_amount := 100, corpus_today := 200, value_at_goal := 210,
             lump_sum_today := 0, monthly_sip := 0 } := by
  constructor
  · rw [goal_gap_zero_c4.1 5 6 1 100 200 5 0 (by norm_num) (by norm_num)
      (by norm_num [Finset.sum_range_one])]
    norm_num [Option.some.injEq, EducationResult.mk.injEq, pyRound0, pyRoundInt,
      Finset.sum_range_one]
  · rw [goal_gap_zero_c4.2 20 21 100 200 5 0 (by norm_num) (by norm_num) (by norm_num)]
    norm_num [Option.some.injEq, MarriageResult.mk.injEq, pyRound0, pyRoundInt]

/-- C6: `sip_tenure_calculator` stops at the smallest month count whose
annuity-due corpus reaches the target (monotonicity-free minimality via the
loop), hard-capped at 720 months: a nonpositive target exits immediately
with 0 months, a target unreachable within 720 months returns the capped
state without failing, and `years_required = ceil(months / 12)` in every
case. -/
theorem sip_tenure_c6 (target c a : ℝ) : ∃ m : ℕ,
    sip_tenure_calculator target c a =
      { years_required := Int.ceil ((m : ℝ) / 12)
        total_months := m
        total_invested := pyRound0 (c * m)
        final_corpus := pyRound0 (sipCorpus c (monthlyRate a) m) } ∧
    m ≤ 720 ∧
    (∀ j, j < m → sipCorpus c (monthlyRate a) j < target) ∧
    (m < 720 → target ≤ sipCorpus c (monthlyRate a) m) ∧
    (target ≤ 0 → m = 0) ∧
    ((∀ j, j ≤ 720 → sipCorpus c (monthlyRate a) j < target) → m = 720) := by
  obtain ⟨m, heq, hk, hcap, hmin, hhit⟩ :=
    tenureGo_spec target c (monthlyRate a) (60 * 12) 0
  have e1 : sipCorpus c (monthlyRate a) 0 = 0 := rfl
  have e2 : c * ((0 : ℕ) : ℝ) = 0 := by norm_num
  rw [e1, e2] at heq
  refine ⟨m, ?_, by omega, fun j hj => hmin j (by omega) hj, fun hm => hhit (by omega),
    ?_, ?_⟩
  · simp only [sip_tenure_calculator]
    rw [heq]
  · intro ht
    by_contra hm
    have h0 := hmin 0 (by omega) (by omega)
    rw [e1] at h0
    linarith
  · intro hall
    by_contra hm
    have hlt : m < 720 := by omega
    have hge := hhit (by omega)
    have hup := hall m (by omega)
    linarith

/-- C6 witness: a nonpositive target (`target = 0`) exits immediately with
zero months, zero invested and zero corpus. -/
theorem sip_tenure_c6_witness :
    sip_tenure_calculator 0 1 0 =
      { years_required := 0, total_months := 0, total_invested := 0, final_corpus := 0 } := by
  obtain ⟨m, heq, -, -, -, hzero, -⟩ := sip_tenure_c6 0 1 0
  have hm : m = 0 := hzero le_rfl
  subst hm
  rw [heq]
  norm_num [SIPTenureResult.mk.injEq, pyRound0_zero, sipCorpus]

/-- C8: `lumpsum_calculator` returns the `inflation_adjusted_value` field
exactly when the optional inflation parameter is supplied: with `none` the
field is absent from the result (not 0), and `inflation = 0` counts as
supplied (the deflator is 1, so the field is present and equals the
nominal future value).  For a supplied inflation the deflator must be
nonzero (otherwise the division faults). -/
theorem lumpsum_inflation_c8 (amount : ℝ) (y : ℕ) (a : ℝ) :
    (lumpsum_calculator amount (y : ℤ) a none =
      some { future_value := pyRound0 (amount * (1 + monthlyRate a) ^ ((y : ℤ) * 12))
             inflation_adjusted_value := none }) ∧
    (∀ i : ℝ, (1 + monthlyRate i) ^ ((y : ℤ) * 12) ≠ 0 →
      lumpsum_calculator amount (y : ℤ) a (some i) =
        some { future_value := pyRound0 (amount * (1 + monthlyRate a) ^ ((y : ℤ) * 12))
               inflation_adjusted_value :=
                 some (pyRound0 (amount * (1 + monthlyRate a) ^ ((y : ℤ) * 12) /
                   (1 + monthlyRate i) ^ ((y : ℤ) * 12))) }) ∧
    (lumpsum_calculator amount (y : ℤ) a (some 0) =
      some { future_value := pyRound0 (amount * (1 + monthlyRate a) ^ ((y : ℤ) * 12))
             inflation_adjusted_value :=
               some (pyRound0 (amount * (1 + monthlyRate a) ^ ((y : ℤ) * 12))) }) := by
  have hy : (0 : ℤ) ≤ (y : ℤ) * 12 := by omega
  have h1 : lumpsum_calculator amount (y : ℤ) a none =
      some { future_value := pyRound0 (amount * (1 + monthlyRate a) ^ ((y : ℤ) * 12))
             inflation_adjusted_value := none } := by
    simp only [lumpsum_calculator]
    rw [zpow?_of_nonneg _ _ hy]
    rfl
  have h2 : ∀ i : ℝ, (1 + monthlyRate i) ^ ((y : ℤ) * 12) ≠ 0 →
      lumpsum_calculator amount (y : ℤ) a (some i) =
        some { future_value := pyRound0 (amount * (1 + monthlyRate a) ^ ((y : ℤ) * 12))
               inflation_adjusted_value :=
                 some (pyRound0 (amount * (1 + monthlyRate a) ^ ((y : ℤ) * 12) /
                   (1 + monthlyRate i) ^ ((y : ℤ) * 12))) } := by
    intro i hi
    simp only [lumpsum_calculator]
    rw [zpow?_of_nonneg (1 + monthlyRate a) _ hy]
    simp only [Option.some_bind]
    rw [zpow?_of_nonneg (1 + monthlyRate i) _ hy]
    simp only [Option.some_bind]
    rw [div?_of_ne _ _ hi]
    rfl
  have h0 : (1 + monthlyRate 0) ^ ((y : ℤ) * 12) = (1 : ℝ) := by
    rw [monthlyRate_zero, add_zero, one_zpow]
  have h3 := h2 0 (by rw [h0]; exact one_ne_zero)
  rw [h0, div_one] at h3
  exact ⟨h1, h2, h3⟩

/-- C8 witness: the theorem applied at `amount = 100`, `y = 1`, `a = 0`
without and with a supplied inflation of 0: the field is absent in the
first case and present (equal to the future value) in the second. -/
theorem lumpsum_inflation_c8_witness :
    lumpsum_calculator 100 ((1 : ℕ) : ℤ) 0 none =
      some { future_value := 100, inflation_adjusted_value := none } ∧
    lumpsum_calculator 100 ((1 : ℕ) : ℤ) 0 (some 0) =
      some { future_value := 100, inflation_adjusted_value := some 100 } := by
  have h := lumpsum_inflation_c8 100 1 0
  have h0 : (1 + monthlyRate 0) ^ (((1 : ℕ) : ℤ) * 12) = (1 : ℝ) := by
    rw [monthlyRate_zero, add_zero, one_zpow]
  constructor
  · rw [h.1, h0]
    norm_num [pyRound0, pyRoundInt]
  · rw [h.2.2, h0]
    norm_num [pyRound0, pyRoundInt]

/-- C9: with `delay_months ≥ years*12` the cost-of-delay comparator still
returns normally: the delayed leg runs zero iterations so its maturity
value is 0, while the full-duration leg and `cost_of_delay` (which equals
the rounded full future value) are computed and returned. -/
theorem cost_of_delay_full_delay_c9 (c : ℝ) (y : ℕ) (a : ℝ) (d : ℤ)
    (h : (y : ℤ) * 12 ≤ d) :
    cost_of_delay_calculator c (y : ℤ) a d =
      { start_now :=
          { maturity_value := pyRound0 (sipCorpus c (monthlyRate a) (y * 12))
            amount_invested := pyRound0 (c * ((y * 12 : ℕ) : ℝ))
            wealth_gained := pyRound0 (sipCorpus c (monthlyRate a) (y * 12) -
              c * ((y * 12 : ℕ) : ℝ)) }
        start_late :=
          { delay_months := d
            maturity_value := 0
            amount_invested := pyRound0 (c * (((y : ℤ) * 12 - d : ℤ) : ℝ))
            wealth_gained := pyRound0 (0 - c * (((y : ℤ) * 12 - d : ℤ) : ℝ)) }
        cost_of_delay := pyRound0 (sipCorpus c (monthlyRate a) (y * 12)) } := by
  have hm : ((y : ℤ) * 12).toNat = y * 12 := by omega
  have hz : ((y : ℤ) * 12 - d).toNat = 0 := by omega
  have hc : (((y : ℤ) * 12 : ℤ) : ℝ) = ((y * 12 : ℕ) : ℝ) := by push_cast; ring
  simp only [cost_of_delay_calculator, sip_future_value]
  rw [hm, hz, hc]
  simp only [sipCorpus]
  rw [sub_zero, pyRound0_zero]

/-- C9 witness: the theorem applied at `c = 100`, `y = 0`, `a = 7`,
`delay = 5`: both legs are fully delayed, the invested amount of the late
leg is the signed `-500`, and nothing faults. -/
theorem cost_of_delay_full_delay_c9_witness :
    cost_of_delay_calculator 100 ((0 : ℕ) : ℤ) 7 5 =
      { start_now := { maturity_value := 0, amount_invested := 0, wealth_gained := 0 }
        start_late := { delay_months := 5, maturity_value := 0, amount_invested := -500,
                        wealth_gained := 500 }
        cost_of_delay := 0 } := by
  rw [cost_of_delay_full_delay_c9 100 0 7 5 (by norm_num)]
  norm_num [CODResult.mk.injEq, CODLeg.mk.injEq, CODLateLeg.mk.injEq, sipCorpus,
    pyRound0, pyRoundInt]

/-- C10 counterexample: at `monthly_sip = 0.3 > 0`, `years = 0`,
`delay_months = 1 > 0` the reported `start_late.amount_invested` is
`round(-0.3) = 0`, which is not negative, so the claimed strict negativity
fails for small positive contributions. -/
theorem cost_of_delay_c10_counterexample :
    ¬ (cost_of_delay_calculator (3 / 10) 0 0 1).start_late.amount_invested < 0 := by
  simp only [cost_of_delay_calculator]
  norm_num [pyRound0, pyRoundInt]

/-- C10 (amended): for a positive contribution and a delay strictly larger
than `years*12`, `start_late.amount_invested` is the signed, unclamped
`round(c * (y*12 - d))` and `start_late.wealth_gained` is exactly its
negation; whenever `c * (d - y*12) > 1/2` (so the rounding cannot reach 0)
the reported amount is strictly negative and the reported wealth gain is
its strictly positive negation. -/
theorem cost_of_delay_negative_invested_c10 (c : ℝ) (y : ℕ) (a : ℝ) (d : ℤ)
    (hcpos : 0 < c) (hd : (y : ℤ) * 12 < d) :
    (cost_of_delay_calculator c (y : ℤ) a d).start_late.amount_invested =
      pyRound0 (c * (((y : ℤ) * 12 - d : ℤ) : ℝ)) ∧
    (cost_of_delay_calculator c (y : ℤ) a d).start_late.wealth_gained =
      -(cost_of_delay_calculator c (y : ℤ) a d).start_late.amount_invested ∧
    (1 / 2 < c * ((d - (y : ℤ) * 12 : ℤ) : ℝ) →
      (cost_of_delay_calculator c (y : ℤ) a d).start_late.amount_invested < 0 ∧
      0 < (cost_of_delay_calculator c (y : ℤ) a d).start_late.wealth_gained) := by
  have hz : ((y : ℤ) * 12 - d).toNat = 0 := by omega
  have e1 : (cost_of_delay_calculator c (y : ℤ) a d).start_late.amount_invested =
      pyRound0 (c * (((y : ℤ) * 12 - d : ℤ) : ℝ)) := rfl
  have e2 : (cost_of_delay_calculator c (y : ℤ) a d).start_late.wealth_gained =
      pyRound0 (sipCorpus c (monthlyRate a) ((y : ℤ) * 12 - d).toNat -
        c * (((y : ℤ) * 12 - d : ℤ) : ℝ)) := rfl
  rw [hz] at e2
  simp only [sipCorpus] at e2
  rw [zero_sub, pyRound0_neg] at e2
  refine ⟨e1, by rw [e2, e1], ?_⟩
  intro hthr
  have hcast : (((y : ℤ) * 12 - d : ℤ) : ℝ) = -(((d - (y : ℤ) * 12 : ℤ) : ℝ)) := by
    push_cast
    ring
  have hlt : c * (((y : ℤ) * 12 - d : ℤ) : ℝ) < -(1 / 2) := by
    rw [hcast, mul_neg]
    linarith
  have hri := pyRoundInt_le_neg_one _ hlt
  have hneg : pyRound0 (c * (((y : ℤ) * 12 - d : ℤ) : ℝ)) < 0 := by
    rw [pyRound0]
    have hle : ((pyRoundInt (c * (((y : ℤ) * 12 - d : ℤ) : ℝ)) : ℤ) : ℝ) ≤ -1 := by
      exact_mod_cast hri
    linarith
  rw [e1, e2]
  exact ⟨hneg, by linarith⟩

/-- C10 witness: the amended theorem applied at `c = 1000`, `y = 0`,
`delay = 1`: the late leg reports invested `-1000 < 0` and wealth gained
`1000 > 0`. -/
theorem cost_of_delay_negative_invested_c10_witness :
    (cost_of_delay_calculator 1000 ((0 : ℕ) : ℤ) 0 1).start_late.amount_invested < 0 ∧
    0 < (cost_of_delay_calculator 1000 ((0 : ℕ) : ℤ) 0 1).start_late.wealth_gained :=
  (cost_of_delay_negative_invested_c10 1000 0 0 1 (by norm_num) (by norm_num)).2.2
    (by norm_num)

end FinCalc
